import Mathlib

/-!
Verification of `DL_rec_togg_sns.py` (sensor toggling / recording script).

The script drives a gas-sensor module over a Dynamixel-protocol bus: it
resolves which port holds the target sensor, configures a range, arms
measurement, reads back register data and appends results to a text log.
Every bus transaction returns a communication-status code and a device-error
code; we model the bus as explicit oracle functions from register addresses to
transaction results, and model Python exceptions (`ValueError` from invalid
enum conversions, `IndexError` from indexing an empty list) with `Except`.
-/

namespace DLRec

/-! ### Constants (module-level constants of the script) -/

def DXL_ID : Nat := 171

def DX_RESET_CMD : Nat := 23

def DX_MEAS_START_STOP : Nat := 24

def DX_SENSORS_DATA_FIRST : Nat := 85

def SNS_ETHANOL_ID : Nat := 46

/-- SDK constant `COMM_SUCCESS`. -/
def COMM_SUCCESS : Int := 0

/-- `PORT_REGISTERS_RANGES`: (port name, SNS_ID register, SEL_RANGE register),
in the dictionary's insertion order. -/
def PORT_REGISTERS_RANGES : List (String × Nat × Nat) :=
  [("Port1", 51, 53), ("Port2", 55, 57), ("Port3", 59, 61), ("Port4", 63, 65),
   ("Port1S", 67, 69), ("Port2S", 71, 73), ("Port3S", 75, 77), ("Port4S", 79, 81)]

/-! ### Enums and transaction results -/

/-- Python exceptions that the modelled code can raise. -/
inductive PyError where
  | valueError
  | indexError
  | keyError
deriving DecidableEq, Repr

/-- `class CommunicationStatus(Enum)`. -/
inductive CommunicationStatus where
  | SUCCESS
  | RX_TIMEOUT
  | CRC_ERROR
  | BUSY
deriving DecidableEq, Repr

/-- The Python enum call `CommunicationStatus(n)`: `none` models the
`ValueError` raised on a code outside the enum. -/
def CommunicationStatus.fromInt (n : Int) : Option CommunicationStatus :=
  if n = 0 then some .SUCCESS
  else if n = -3001 then some .RX_TIMEOUT
  else if n = -3002 then some .CRC_ERROR
  else if n = -3003 then some .BUSY
  else none

/-- `class DeviceError(Enum)`. -/
inductive DeviceError where
  | VOLTAGE_ERROR
  | OVERHEATING
  | MOTOR_OVERLOAD
deriving DecidableEq, Repr

/-- The Python enum call `DeviceError(n)`: `none` models the `ValueError`
raised on a code outside the enum. -/
def DeviceError.fromInt (n : Nat) : Option DeviceError :=
  if n = 1 then some .VOLTAGE_ERROR
  else if n = 2 then some .OVERHEATING
  else if n = 3 then some .MOTOR_OVERLOAD
  else none

namespace SNS_ranges

def RANGE_1 : Nat := 1

def RANGE_2 : Nat := 2

def RANGE_3 : Nat := 4

end SNS_ranges

/-- Result of a bus read transaction: `(value, dxl_comm_result, dxl_error)`. -/
structure ReadResult where
  val : Nat
  comm : Int
  err : Nat
deriving DecidableEq, Repr

/-- Result of a bus write transaction: `(dxl_comm_result, dxl_error)`. -/
structure WriteResult where
  comm : Int
  err : Nat
deriving DecidableEq, Repr

/-- The bus client: oracle functions giving each transaction's outcome.
Reads are keyed by register address, writes by address and value. -/
structure Bus where
  read2 : Nat → ReadResult
  read4 : Nat → ReadResult
  write1 : Nat → Nat → WriteResult
  write2 : Nat → Nat → WriteResult
  ping : WriteResult

/-! ### `find_port_sns` (port-resolution scan)

The scan walks registry entries `(port_name, sns_id_register)` in order,
reading 2 bytes at each `sns_id_register`.  Besides the Python return value
(`Except` for a raised exception, `Option String` for port-or-None) we record
the list of registers actually read, so that early exit is observable. -/

def find_port_sns (r2 : Nat → ReadResult) (sns_id_desired : Nat) :
    List (String × Nat) → Except PyError (Option String) × List Nat
  | [] => (.ok none, [])
  | (port_name, port_id_curr) :: rest =>
    let r := r2 port_id_curr
    match CommunicationStatus.fromInt r.comm with
    | none => (.error .valueError, [port_id_curr])
    | some cs =>
      if cs ≠ CommunicationStatus.SUCCESS then
        -- communication error: skip to the next register
        let p := find_port_sns r2 sns_id_desired rest
        (p.1, port_id_curr :: p.2)
      else if r.err ≠ 0 ∧ DeviceError.fromInt r.err = none then
        -- `DeviceError(dxl_error)` raises ValueError on an unmapped code
        (.error .valueError, [port_id_curr])
      else if r.val = sns_id_desired then
        (.ok (some port_name), [port_id_curr])
      else
        let p := find_port_sns r2 sns_id_desired rest
        (p.1, port_id_curr :: p.2)

/-! ### `read_sensor_data`

`for i in range(3)`: read 4 bytes at `DX_SENSORS_DATA_FIRST + i*4`; any
communication or device error returns `None`; the success branch only prints
the raw value (the decoding and the `return list_of_data` are commented out in
the source), so after the loop the function falls through and returns `None`.
The second component records the register addresses actually read. -/

def read_sensor_data_aux (r4 : Nat → ReadResult) :
    List Nat → Option (List (Nat × Nat)) × List Nat
  | [] => (none, [])
  | i :: rest =>
    let addr := DX_SENSORS_DATA_FIRST + i * 4
    let r := r4 addr
    if r.comm ≠ COMM_SUCCESS then (none, [addr])
    else if r.err ≠ 0 then (none, [addr])
    else
      let p := read_sensor_data_aux r4 rest
      (p.1, addr :: p.2)

def read_sensor_data (r4 : Nat → ReadResult) :
    Option (List (Nat × Nat)) × List Nat :=
  read_sensor_data_aux r4 [0, 1, 2]

/-- Modelled from the spec: the per-word decoding of a 32-bit register word
into a (low 16 bits, high 16 bits) pair.  The corresponding statements in
`read_sensor_data` (`f_num = vals_sns & 0xFFFF`, `s_num = (vals_sns >> 16) &
0xFFFF`) exist in the source only as commented-out code. -/
def decode_word (v : Nat) : Nat × Nat := (v % 65536, v / 65536 % 65536)

/-! ### `toggle_sns`

Configure the range-select register of the resolved port, heat-soak with six
pings, wait for the operator, then arm measurement.  The Python function has
no `return` on its success path, so it returns `None` on every path; the
observable behaviour is its trace of bus events.  `delta_range` is the value
the operator would supply to `get_valid_delta_range`, used only in the
`flag_input` branch. -/

inductive Event where
  | write2 (addr val : Nat)
  | write1 (addr val : Nat)
  | read4 (addr : Nat)
  | read2 (addr : Nat)
  | ping
deriving DecidableEq, Repr

/-- `flag_input = False` is hardcoded in `toggle_sns`. -/
def flag_input : Bool := false

/-- `default_rang = SNS_ranges.RANGE_1.value`. -/
def default_rang : Nat := SNS_ranges.RANGE_1

/-- The dictionary lookup `PORT_REGISTERS_RANGES[port_n]["SEL_RANGE"]`. -/
def sel_range_of (port_n : String) : Option Nat :=
  (PORT_REGISTERS_RANGES.find? (fun e => e.1 = port_n)).map (fun e => e.2.2)

def toggle_sns (bus : Bus) (sns_sel_range_id : Nat) (delta_range : Nat) :
    Option Unit × List Event :=
  let w :=
    if flag_input then
      (bus.write2 sns_sel_range_id delta_range,
       Event.write2 sns_sel_range_id delta_range)
    else
      (bus.write2 sns_sel_range_id default_rang,
       Event.write2 sns_sel_range_id default_rang)
  if w.1.comm ≠ COMM_SUCCESS then
    (none, [w.2])
  else
    -- six liveness pings during the heat-soak wait (results ignored),
    -- then the operator confirmation, then the measurement-start write
    let heating := List.replicate 6 Event.ping
    let m := bus.write1 DX_MEAS_START_STOP 1
    if m.comm ≠ COMM_SUCCESS then
      (none, w.2 :: heating ++ [Event.write1 DX_MEAS_START_STOP 1])
    else
      (none, w.2 :: heating ++ [Event.write1 DX_MEAS_START_STOP 1])

/-! ### `write_data_to_file` / `verify_data_written`

The filesystem at one path is `Option (List Char)`: `none` for a nonexistent
file, `some content` for its raw character content. -/

def header : List Char := "Sensor Data Pairs\n=================\n\n".data

def sentinel : List Char := "\nEND OF DATA\n".data

/-- Python `f"{n:>6}"`: decimal digits right-aligned in a field of width 6. -/
def rjust6 (n : Nat) : List Char :=
  let s := Nat.toDigits 10 n
  List.replicate (6 - s.length) ' ' ++ s

/-- One formatted line `f"Pair {index+1}: {pair[0]:>6}, {pair[1]:>6}\n"`. -/
def pair_line (index : Nat) (pair : Nat × Nat) : List Char :=
  "Pair ".data ++ Nat.toDigits 10 (index + 1) ++ ": ".data ++
    rjust6 pair.1 ++ ", ".data ++ rjust6 pair.2 ++ ['\n']

def data_lines (data : List (Nat × Nat)) : List Char :=
  (data.enum.map (fun ip => pair_line ip.1 ip.2)).flatten

/-- Append mode: header on first creation, then one line per pair, then the
sentinel.  Returns the file's new content. -/
def write_data_to_file (fs : Option (List Char)) (data : List (Nat × Nat)) :
    List Char :=
  (match fs with
   | none => header
   | some content => content) ++ data_lines data ++ sentinel

/-- Python `file.readlines()`: split into lines, each keeping its trailing
newline; a final segment without a newline is kept too. -/
def readlinesAux : List Char → List Char → List (List Char)
  | [], acc => if acc.isEmpty then [] else [acc.reverse]
  | c :: rest, acc =>
    if c = '\n' then (c :: acc).reverse :: readlinesAux rest []
    else readlinesAux rest (c :: acc)

def readlines (content : List Char) : List (List Char) :=
  readlinesAux content []

def isPySpace (c : Char) : Bool :=
  c = ' ' || c = '\t' || c = '\n' || c = '\r'

/-- Python `str.strip()` restricted to the whitespace the log can contain. -/
def pyStrip (cs : List Char) : List Char :=
  ((cs.dropWhile isPySpace).reverse.dropWhile isPySpace).reverse

/-- `verify_data_written`: `False` for a nonexistent path; otherwise
`readlines()[-1]`, which raises `IndexError` on an empty file, then compares
the stripped last line with the sentinel text. -/
def verify_data_written (fs : Option (List Char)) : Except PyError Bool :=
  match fs with
  | none => .ok false
  | some content =>
    match (readlines content).getLast? with
    | none => .error .indexError
    | some last => .ok (pyStrip last = "END OF DATA".data)

/-! ### The tail of `main` after `read_sensor_data` -/

/-- Which of the guarded actions of `main` ran. -/
structure TailActions where
  wroteFile : Bool
  deinitAttempted : Bool
  resetAttempted : Bool
deriving DecidableEq, Repr

def noActions : TailActions := ⟨false, false, false⟩

/-- `if sensor_data_pairs:` then write the file; `if verify_data_written:`
then deinit and reset.  Python truthiness makes both `None` and an empty list
skip the branch.  Returns the actions taken and the file's state. -/
def main_tail (pairs : Option (List (Nat × Nat))) (fs : Option (List Char)) :
    TailActions × Option (List Char) :=
  match pairs with
  | none => (noActions, fs)
  | some data =>
    if data.isEmpty then (noActions, fs)
    else
      let content := write_data_to_file fs data
      match verify_data_written (some content) with
      | .ok true => (⟨true, true, true⟩, some content)
      | .ok false => (⟨true, false, false⟩, some content)
      | .error _ => (⟨true, false, false⟩, some content)

/-- The part of `main` from `toggle_sns` on: `main` ignores `toggle_sns`'s
return value and calls `read_sensor_data` unconditionally, then runs the
guarded tail.  Returns the bus-event trace and the tail outcome. -/
def main_session (bus : Bus) (sns_sel_range_id delta_range : Nat)
    (fs : Option (List Char)) :
    List Event × (TailActions × Option (List Char)) :=
  let t := toggle_sns bus sns_sel_range_id delta_range
  let r := read_sensor_data bus.read4
  (t.2 ++ r.2.map Event.read4, main_tail r.1 fs)

/-! ### Concrete oracles used in counterexamples and witnesses -/

/-- Scenario oracle: register 51 reads 99, register 55 reads 46, all
transactions clean. -/
def r2_two_ports : Nat → ReadResult :=
  fun a => if a = 51 then ⟨99, 0, 0⟩ else if a = 55 then ⟨46, 0, 0⟩ else ⟨0, 0, 0⟩

/-- Oracle where register 51 reads the target value 46 with a successful
communication status but device-error code 4, outside the `DeviceError`
enum. -/
def r2_err4 : Nat → ReadResult :=
  fun a => if a = 51 then ⟨46, 0, 4⟩ else ⟨46, 0, 0⟩

/-- Oracle where register 51 reads the target value 46 with a successful
communication status and device-error code 2 (`OVERHEATING`). -/
def r2_err2 : Nat → ReadResult :=
  fun a => if a = 51 then ⟨46, 0, 2⟩ else ⟨46, 0, 0⟩

/-- Oracle where register 51 answers with communication status -1001 (the
SDK's `COMM_TX_FAIL`, outside the `CommunicationStatus` enum) and register 55
reads 46 cleanly. -/
def r2_comm1001 : Nat → ReadResult :=
  fun a => if a = 51 then ⟨0, -1001, 0⟩ else ⟨46, 0, 0⟩

/-- Oracle where register 51 answers with communication status -3001
(`RX_TIMEOUT`) and register 55 reads 46 cleanly. -/
def r2_timeout : Nat → ReadResult :=
  fun a => if a = 51 then ⟨0, -3001, 0⟩ else ⟨46, 0, 0⟩

/-- A bus on which every transaction succeeds except the 1-byte
measurement-start write, which times out. -/
def bus_meas_fail : Bus where
  read2 := fun _ => ⟨0, 0, 0⟩
  read4 := fun _ => ⟨131073, 0, 0⟩
  write1 := fun _ _ => ⟨-3001, 0⟩
  write2 := fun _ _ => ⟨0, 0⟩
  ping := ⟨0, 0⟩

/-- A bus on which every transaction succeeds; 4-byte reads return
0x00020001. -/
def bus_all_ok : Bus where
  read2 := fun _ => ⟨0, 0, 0⟩
  read4 := fun _ => ⟨131073, 0, 0⟩
  write1 := fun _ _ => ⟨0, 0⟩
  write2 := fun _ _ => ⟨0, 0⟩
  ping := ⟨0, 0⟩

/-! ### Helper lemmas about the port scan -/

theorem find_port_sns_head_found (r2 : Nat → ReadResult) (T : Nat)
    (e : String × Nat) (rest : List (String × Nat))
    (hc : (r2 e.2).comm = 0) (he : (r2 e.2).err = 0) (hv : (r2 e.2).val = T) :
    find_port_sns r2 T (e :: rest) = (.ok (some e.1), [e.2]) := by
  obtain ⟨pn, reg⟩ := e
  simp only at hc he hv
  simp [find_port_sns, CommunicationStatus.fromInt, hc, he, hv]

theorem find_port_sns_head_skip (r2 : Nat → ReadResult) (T : Nat)
    (e : String × Nat) (rest : List (String × Nat))
    (hc : (r2 e.2).comm = 0) (he : (r2 e.2).err = 0) (hv : (r2 e.2).val ≠ T) :
    find_port_sns r2 T (e :: rest) =
      ((find_port_sns r2 T rest).1, e.2 :: (find_port_sns r2 T rest).2) := by
  obtain ⟨pn, reg⟩ := e
  simp only at hc he hv
  simp [find_port_sns, CommunicationStatus.fromInt, hc, he, hv]

theorem find_port_sns_first_match (r2 : Nat → ReadResult) (T : Nat)
    (pre : List (String × Nat)) :
    ∀ (e : String × Nat) (post : List (String × Nat)),
      (∀ y ∈ pre ++ e :: post, (r2 y.2).comm = 0 ∧ (r2 y.2).err = 0) →
      (r2 e.2).val = T → (∀ x ∈ pre, (r2 x.2).val ≠ T) →
      find_port_sns r2 T (pre ++ e :: post) =
        (.ok (some e.1), (pre ++ [e]).map Prod.snd) := by
  induction pre with
  | nil =>
    intro e post hok hv _
    obtain ⟨hc, he⟩ := hok e (by simp)
    simpa using find_port_sns_head_found r2 T e post hc he hv
  | cons x pre ih =>
    intro e post hok hv hpre
    obtain ⟨hc, he⟩ := hok x (by simp)
    rw [List.cons_append,
      find_port_sns_head_skip r2 T x (pre ++ e :: post) hc he
        (hpre x (by simp)),
      ih e post (fun y hy => hok y (by simp [hy])) hv
        (fun y hy => hpre y (by simp [hy]))]
    simp

theorem find_port_sns_no_match (r2 : Nat → ReadResult) (T : Nat)
    (R : List (String × Nat))
    (hok : ∀ y ∈ R, (r2 y.2).comm = 0 ∧ (r2 y.2).err = 0)
    (hnm : ∀ x ∈ R, (r2 x.2).val ≠ T) :
    find_port_sns r2 T R = (.ok none, R.map Prod.snd) := by
  induction R with
  | nil => simp [find_port_sns]
  | cons x R ih =>
    obtain ⟨hc, he⟩ := hok x (by simp)
    rw [find_port_sns_head_skip r2 T x R hc he (hnm x (by simp)),
      ih (fun y hy => hok y (by simp [hy])) (fun y hy => hnm y (by simp [hy]))]
    simp

/-! ### Helper lemmas about the log file -/

theorem readlinesAux_split (ds : List Char) :
    ∀ (cs acc : List Char),
      readlinesAux (cs ++ '\n' :: ds) acc =
        readlinesAux (cs ++ ['\n']) acc ++ readlinesAux ds [] := by
  intro cs
  induction cs with
  | nil => intro acc; simp [readlinesAux]
  | cons c cs ih =>
    intro acc
    by_cases hc : c = '\n' <;> simp [readlinesAux, hc, ih]

theorem readlinesAux_cons_ne_nil (cs : List Char) :
    ∀ (c : Char) (acc : List Char), readlinesAux (c :: cs) acc ≠ [] := by
  induction cs with
  | nil =>
    intro c acc
    by_cases hc : c = '\n' <;> simp [readlinesAux, hc]
  | cons d cs ih =>
    intro c acc
    rw [readlinesAux]
    by_cases hc : c = '\n'
    · simp [hc]
    · rw [if_neg hc]
      exact ih d (c :: acc)

theorem write_ends_with_sentinel (fs : Option (List Char))
    (data : List (Nat × Nat)) :
    write_data_to_file fs data =
      ((match fs with | none => header | some c => c) ++ data_lines data)
        ++ ('\n' :: "END OF DATA\n".data) := by
  have hs : sentinel = '\n' :: "END OF DATA\n".data := by decide
  unfold write_data_to_file
  rw [hs, List.append_assoc]

theorem readlines_write_getLast (fs : Option (List Char))
    (data : List (Nat × Nat)) :
    (readlines (write_data_to_file fs data)).getLast? =
      some "END OF DATA\n".data := by
  rw [write_ends_with_sentinel, readlines, readlinesAux_split]
  have h2 : readlinesAux "END OF DATA\n".data [] = ["END OF DATA\n".data] := by
    decide
  rw [h2, List.getLast?_append_cons]
  rfl

/-! ### Helper lemmas about the data read -/

theorem read_sensor_data_aux_none (r4 : Nat → ReadResult) (l : List Nat) :
    (read_sensor_data_aux r4 l).1 = none := by
  induction l with
  | nil => rfl
  | cons i rest ih =>
    rw [read_sensor_data_aux]
    split
    · rfl
    · split
      · rfl
      · simpa using ih

theorem read_sensor_data_first_addr (r4 : Nat → ReadResult) :
    DX_SENSORS_DATA_FIRST ∈ (read_sensor_data r4).2 := by
  rw [read_sensor_data, read_sensor_data_aux]
  split
  · simp
  · split <;> simp

/-- `toggle_sns` has no `return` on its success path: every path returns
`None`. -/
theorem toggle_sns_fst (bus : Bus) (sel delta : Nat) :
    (toggle_sns bus sel delta).1 = none := by
  simp only [toggle_sns]
  split_ifs <;> rfl

theorem main_tail_none (fs : Option (List Char)) :
    main_tail none fs = (noActions, fs) := rfl

/-! ### Claim theorems -/

/-- C1: every execution of `read_sensor_data`, whatever the communication
statuses and device-error codes of the three 4-byte reads (the all-success
case included), returns `None`; consequently the branch of `main` guarded by
the returned value takes none of its actions (no file write, no deinit, no
reset) and leaves the file untouched. -/
theorem read_sensor_data_always_none (r4 : Nat → ReadResult)
    (fs : Option (List Char)) :
    (read_sensor_data r4).1 = none ∧
    main_tail (read_sensor_data r4).1 fs = (noActions, fs) := by
  have h : (read_sensor_data r4).1 = none := read_sensor_data_aux_none r4 _
  exact ⟨h, by rw [h]; exact main_tail_none fs⟩

/-- C2 counterexample: on the bus where only the measurement-start write
fails (timeout) and everything else succeeds, the session trace of `main`
still contains the 4-byte read of the sensor-data base register: the claim
that no read-block attempt is made is false. -/
theorem measure_fail_read_attempted_cex :
    (bus_meas_fail.write1 DX_MEAS_START_STOP 1).comm ≠ COMM_SUCCESS ∧
    Event.read4 DX_SENSORS_DATA_FIRST ∈ (main_session bus_meas_fail 53 1 none).1 := by
  decide

/-- C2 amended: if the measurement-start write returns a non-success status,
`toggle_sns` returns `None` (as it does on every path); `main` nevertheless
calls `read_sensor_data`, so the sensor-data block read is still attempted;
deinit (and reset, and the file write) are not attempted. -/
theorem measure_fail_amended (bus : Bus) (sel delta : Nat)
    (fs : Option (List Char))
    (_hw : (bus.write1 DX_MEAS_START_STOP 1).comm ≠ COMM_SUCCESS) :
    (toggle_sns bus sel delta).1 = none ∧
    Event.read4 DX_SENSORS_DATA_FIRST ∈ (main_session bus sel delta fs).1 ∧
    (main_session bus sel delta fs).2.1.deinitAttempted = false := by
  refine ⟨?_, ?_, ?_⟩
  · exact toggle_sns_fst bus sel delta
  · rw [main_session]
    exact List.mem_append_right _
      (List.mem_map_of_mem _ (read_sensor_data_first_addr bus.read4))
  · rw [main_session]
    simp only [read_sensor_data_aux_none bus.read4 _, read_sensor_data]
    rfl

/-- C2 witness for the amended theorem, at the concrete failing bus. -/
theorem measure_fail_amended_witness :
    (toggle_sns bus_meas_fail 53 1).1 = none ∧
    Event.read4 DX_SENSORS_DATA_FIRST ∈ (main_session bus_meas_fail 53 1 none).1 ∧
    (main_session bus_meas_fail 53 1 none).2.1.deinitAttempted = false :=
  measure_fail_amended bus_meas_fail 53 1 none (by decide)

/-- C3 counterexample: with a successful communication status, target value
46 in the register, but device-error code 4 (outside the `DeviceError` enum),
the scan raises `ValueError` and stops at the first entry: the value is never
compared and the remaining entry is never read, so an arbitrary non-zero
device-error code does stop the scan. -/
theorem device_error_unknown_code_fatal_cex :
    (r2_err4 51).comm = 0 ∧ (r2_err4 51).err ≠ 0 ∧ (r2_err4 51).val = 46 ∧
    find_port_sns r2_err4 46 [("Port1", 51), ("Port2", 55)] =
      (.error .valueError, [51]) :=
  ⟨rfl, by decide, rfl, rfl⟩

/-- C3 amended: for a registry entry whose read has a successful
communication status and a non-zero device-error code that belongs to the
`DeviceError` enum (1, 2 or 3), the scan does not stop: the read value is
still compared against the target, giving the entry on a match and moving on
to the rest of the registry otherwise.  A non-zero code outside the enum
instead raises `ValueError` and aborts the scan. -/
theorem device_error_known_code_scan_continues (r2 : Nat → ReadResult)
    (T : Nat) (pn : String) (reg : Nat) (rest : List (String × Nat))
    (hc : (r2 reg).comm = 0)
    (he : (r2 reg).err = 1 ∨ (r2 reg).err = 2 ∨ (r2 reg).err = 3) :
    find_port_sns r2 T ((pn, reg) :: rest) =
      if (r2 reg).val = T then (.ok (some pn), [reg])
      else ((find_port_sns r2 T rest).1, reg :: (find_port_sns r2 T rest).2) := by
  rcases he with h | h | h <;>
    simp [find_port_sns, CommunicationStatus.fromInt, DeviceError.fromInt, hc, h]

/-- C3 witness: the amended theorem at a concrete oracle whose first entry
reports device-error code 2 (`OVERHEATING`) alongside the matching value. -/
theorem device_error_known_code_witness :
    find_port_sns r2_err2 46 [("Port1", 51)] =
      if (r2_err2 51).val = 46 then (.ok (some "Port1"), [51])
      else ((find_port_sns r2_err2 46 []).1, 51 :: (find_port_sns r2_err2 46 []).2) :=
  device_error_known_code_scan_continues r2_err2 46 "Port1" 51 [] rfl
    (Or.inr (Or.inl rfl))

/-- C4 counterexample: a read answered with communication status -1001 (the
SDK's `COMM_TX_FAIL`, a non-Success status outside the `CommunicationStatus`
enum) is not skipped: the enum conversion raises `ValueError`, the scan stops
at the first entry and the matching second entry is never read, so such a
status is fatal to the scan. -/
theorem comm_status_unmapped_fatal_cex :
    (r2_comm1001 51).comm ≠ COMM_SUCCESS ∧
    find_port_sns r2_comm1001 46 [("Port1", 51), ("Port2", 55)] =
      (.error .valueError, [51]) :=
  ⟨by decide, rfl⟩

/-- C4 amended: for a registry entry whose read returns a non-Success
communication status that belongs to the `CommunicationStatus` enum (-3001,
-3002 or -3003), the entry is skipped and the scan continues with the next
entry.  A status outside the enum instead raises `ValueError` and aborts the
scan. -/
theorem comm_status_mapped_skip (r2 : Nat → ReadResult) (T : Nat)
    (pn : String) (reg : Nat) (rest : List (String × Nat))
    (h : (r2 reg).comm = -3001 ∨ (r2 reg).comm = -3002 ∨ (r2 reg).comm = -3003) :
    find_port_sns r2 T ((pn, reg) :: rest) =
      ((find_port_sns r2 T rest).1, reg :: (find_port_sns r2 T rest).2) := by
  rcases h with h | h | h <;>
    simp [find_port_sns, CommunicationStatus.fromInt, h]

/-- C4 witness: the amended theorem at a concrete oracle whose first entry
times out with -3001 (`RX_TIMEOUT`); the scan moves on to the second entry
and finds the sensor there. -/
theorem comm_status_mapped_skip_witness :
    find_port_sns r2_timeout 46 [("Port1", 51), ("Port2", 55)] =
      ((find_port_sns r2_timeout 46 [("Port2", 55)]).1,
        51 :: (find_port_sns r2_timeout 46 [("Port2", 55)]).2) :=
  comm_status_mapped_skip r2_timeout 46 "Port1" 51 [("Port2", 55)] (Or.inl rfl)

/-- C5: over any registry whose entries all read back with a successful
communication status and no device error: if the registry splits as
`pre ++ e :: post` where `e`'s value equals the target and no entry of `pre`
matches (in particular when exactly one entry matches), the scan returns
`e`'s port name and reads exactly the registers of `pre ++ [e]` — the entries
after the first match are not read; and if no entry's value equals the
target, the scan returns `None` after reading all `|R|` registers. -/
theorem find_port_sns_spec (r2 : Nat → ReadResult) (T : Nat)
    (R : List (String × Nat))
    (hok : ∀ y ∈ R, (r2 y.2).comm = 0 ∧ (r2 y.2).err = 0) :
    (∀ (pre : List (String × Nat)) (e : String × Nat)
        (post : List (String × Nat)), R = pre ++ e :: post →
      (r2 e.2).val = T → (∀ x ∈ pre, (r2 x.2).val ≠ T) →
      find_port_sns r2 T R = (.ok (some e.1), (pre ++ [e]).map Prod.snd)) ∧
    ((∀ x ∈ R, (r2 x.2).val ≠ T) →
      find_port_sns r2 T R = (.ok none, R.map Prod.snd)) := by
  constructor
  · intro pre e post hR hv hpre
    subst hR
    exact find_port_sns_first_match r2 T pre e post hok hv hpre
  · intro hnm
    exact find_port_sns_no_match r2 T R hok hnm

/-- C5 witness: the spec's scenario — registry `[Port1 ↦ 51, Port2 ↦ 55]`,
the device reports 99 at register 51 and 46 at register 55, target 46: the
scan returns `Port2` after reading both registers. -/
theorem find_port_sns_spec_witness :
    find_port_sns r2_two_ports 46 [("Port1", 51), ("Port2", 55)] =
      (.ok (some "Port2"), [51, 55]) :=
  (find_port_sns_spec r2_two_ports 46 [("Port1", 51), ("Port2", 55)]
      (by decide)).1
    [("Port1", 51)] ("Port2", 55) [] rfl rfl (by decide)

/-- C6 (the code against the spec's claim): on a bus where all three 4-byte
reads succeed returning 0x00020001, `read_sensor_data` does read the three
32-bit words at the sensor-data base register and the two following word
addresses (85, 89, 93), but returns `None`: the decoding into (low16, high16)
pairs exists only as commented-out code, so no decoded sequence is ever
delivered to the result sink.  The spec's decode (modelled as `decode_word`)
would indeed take 0x00020001 to (1, 2). -/
theorem read_sensor_data_delivers_nothing :
    read_sensor_data bus_all_ok.read4 =
      (none, [DX_SENSORS_DATA_FIRST, DX_SENSORS_DATA_FIRST + 4,
        DX_SENSORS_DATA_FIRST + 8]) ∧
    decode_word 131073 = (1, 2) ∧
    main_tail (read_sensor_data bus_all_ok.read4).1 none = (noActions, none) :=
  ⟨rfl, rfl, rfl⟩

/-- C7: `append` followed immediately by `verify` returns true, for every
starting file state (absent file included) and every batch of reading pairs;
and `verify` on a nonexistent path returns false. -/
theorem append_then_verify_true (fs : Option (List Char))
    (data : List (Nat × Nat)) :
    verify_data_written (some (write_data_to_file fs data)) = .ok true ∧
    verify_data_written none = .ok false := by
  constructor
  · rw [verify_data_written, readlines_write_getLast]
    rfl
  · rfl

/-- C8: appending batch A and then batch B to an initially absent file yields
header, A's lines, A's sentinel, B's lines, B's sentinel, in that order; an
append to an existing file keeps the earlier content as an unchanged prefix
(never rewritten, merged or reordered); and each data line is 1-indexed with
right-aligned width-6 fields. -/
theorem append_additive (A B : List (Nat × Nat)) (old : List Char) :
    write_data_to_file (some (write_data_to_file none A)) B =
      header ++ data_lines A ++ sentinel ++ data_lines B ++ sentinel ∧
    write_data_to_file (some old) B = old ++ data_lines B ++ sentinel ∧
    data_lines [(1, 2)] = "Pair 1:      1,      2\n".data ∧
    pair_line 9 (7, 12345678) = "Pair 10:      7, 12345678\n".data := by
  refine ⟨?_, rfl, by decide, by decide⟩
  simp [write_data_to_file, List.append_assoc]

/-- C9: `verify_data_written` is not total over existing files: on an
existing empty file it raises `IndexError` (indexing the last element of the
empty `readlines()` list); it returns a boolean for a nonexistent path and
for every non-empty file. -/
theorem verify_not_total (content : List Char) :
    verify_data_written (some []) = .error .indexError ∧
    verify_data_written none = .ok false ∧
    (content ≠ [] → ∃ b, verify_data_written (some content) = .ok b) := by
  refine ⟨rfl, rfl, ?_⟩
  intro hne
  obtain ⟨c, cs, rfl⟩ := List.exists_cons_of_ne_nil hne
  have h := readlinesAux_cons_ne_nil cs c []
  rcases hl : (readlines (c :: cs)).getLast? with _ | last
  · rw [List.getLast?_eq_none_iff] at hl
    exact absurd hl h
  · exact ⟨_, by rw [verify_data_written, hl]⟩

/-- C9 witness: the three parts at concrete files — the empty file raises,
the absent file and the one-character file return booleans. -/
theorem verify_not_total_witness :
    verify_data_written (some []) = .error .indexError ∧
    (∃ b, verify_data_written (some ['x']) = .ok b) :=
  ⟨(verify_not_total ['x']).1, (verify_not_total ['x']).2.2 (by decide)⟩

/-- C10: on every call, `toggle_sns` writes the constant 1
(`SNS_ranges.RANGE_1`) to the resolved port's range-select register as its
first bus event: `flag_input` is hardcoded false, so the interactive branch
is unreachable and the operator-supplied delta does not influence the call's
behaviour at all. -/
theorem toggle_sns_range_constant_one (bus : Bus) (sel d1 d2 : Nat) :
    (toggle_sns bus sel d1).2.head? =
      some (Event.write2 sel SNS_ranges.RANGE_1) ∧
    flag_input = false ∧ SNS_ranges.RANGE_1 = 1 ∧
    toggle_sns bus sel d1 = toggle_sns bus sel d2 := by
  refine ⟨?_, rfl, rfl, rfl⟩
  simp only [toggle_sns, flag_input]
  split_ifs <;> first | rfl | contradiction

end DLRec
